import Mathlib

/-!
Verification of the `web_downloader` job orchestrator (Django app driving
yt-dlp). Shallow embedding of:

* `helpers/downloader.py` — command construction (`VIDEO_QUALITY_FORMATS`,
  `download_video`, `download_audio`, `_build_download_command`), the
  line-oriented progress-stream parser and the post-exit output-path
  resolution inside `_execute_download`;
* `utils.py` — `retry_on_db_lock`, `safe_save`, `download_video_thread`
  (final-state writes) and its inner `progress_callback`;
* `views.py` — `get_progress` and `download_file` owner scoping;
* `forms.py` — `DownloadForm.clean`.

Machine-level conventions: strings are Lean `String`s; Python `None` is
`Option.none`; Python truthiness of a string is `s ≠ ""`; exceptions are
`Except` values; `time.sleep` is recorded as a list of slept delays in
integer milliseconds.
-/

namespace WebDownloader

/-- Bool test that `small` occurs as a contiguous sublist of `big`. -/
def charsContain (small big : List Char) : Bool :=
  (List.range (big.length + 1)).any (fun i => small.isPrefixOf (big.drop i))

/-- Python `needle in hay` substring test. -/
def containsStr (needle hay : String) : Bool :=
  charsContain needle.toList hay.toList

/-- Splitter behind Python `str.split(sep)` for a non-empty `sep`:
scan left to right, cutting at each leftmost occurrence of `sep`.
`fuel` bounds the recursion (any value above the input length is
exact); `acc` is the current token, reversed. -/
def pySplitOnAux (sep : List Char) : Nat → List Char → List Char →
    List (List Char)
  | 0, rest, acc => [acc.reverse ++ rest]
  | _ + 1, [], acc => [acc.reverse]
  | fuel + 1, c :: cs, acc =>
    if sep.isPrefixOf (c :: cs) then
      acc.reverse :: pySplitOnAux sep fuel (List.drop sep.length (c :: cs)) []
    else pySplitOnAux sep fuel cs (c :: acc)

/-- Python `s.split(sep)` on character lists (`sep` non-empty; for the
degenerate empty separator, never used by the code, the input is
returned whole). -/
def pySplitOnL (sep l : List Char) : List (List Char) :=
  if sep.isEmpty then [l] else pySplitOnAux sep (l.length + 1) l []

/-- Python `s.split(sep)` on strings. -/
def pySplitOn (s sep : String) : List String :=
  (pySplitOnL sep.toList s.toList).map String.mk

/-- Splitter behind Python `str.split()` with no argument: whitespace
runs separate tokens and produce no empty tokens. -/
def wsSplitAux : List Char → List Char → List (List Char)
  | [], acc => if acc.isEmpty then [] else [acc.reverse]
  | c :: cs, acc =>
    if c.isWhitespace then
      if acc.isEmpty then wsSplitAux cs []
      else acc.reverse :: wsSplitAux cs []
    else wsSplitAux cs (c :: acc)

/-- Python `str.split()` with no argument. -/
def pySplitWs (s : String) : List String :=
  (wsSplitAux s.toList []).map String.mk

/-- Python `str.strip()` with no argument: drop leading and trailing
whitespace. -/
def pyStrip (s : String) : String :=
  String.mk
    (((s.toList.dropWhile Char.isWhitespace).reverse.dropWhile
      Char.isWhitespace).reverse)

/-- Index of the last occurrence of `c` in `cs` (Python `str.rfind`,
with `none` for -1). -/
def rfindChar (c : Char) (cs : List Char) : Option Nat :=
  (List.range cs.length).foldl
    (fun acc i => if cs.get? i = some c then some i else acc) none

/-- Final path component (`pathlib.PurePath.name`), POSIX separators. -/
def basenameOf (p : String) : String :=
  (pySplitOn p "/").getLastD p

/-- `pathlib.PurePath.stem`: the final component with its last suffix
removed; the suffix exists only when the last dot index `i` satisfies
`0 < i < len(name) - 1`. -/
def stemOf (p : String) : String :=
  let name := basenameOf p
  let cs := name.toList
  match rfindChar '.' cs with
  | some i => if 0 < i ∧ i < cs.length - 1 then String.mk (cs.take i) else name
  | none => name

/-- Value of a digit string (all chars assumed digits). -/
def digitsVal (cs : List Char) : Nat :=
  cs.foldl (fun acc c => 10 * acc + (c.toNat - 48)) 0

/-- `int(float(tok))` for the plain-decimal fragment of Python float
literals: optional sign, digits, optional dot and digits, at least one
digit in total (no exponent, no inf/nan, no underscores — the forms the
progress lines of the external tool can carry). `int` truncates toward
zero, so the result is the signed integer part. -/
def parseDecimalTrunc (s : String) : Option Int :=
  let cs := s.toList
  let (sign, rest) :=
    match cs with
    | '-' :: r => ((-1 : Int), r)
    | '+' :: r => ((1 : Int), r)
    | r => ((1 : Int), r)
  match pySplitOnL ['.'] rest with
  | [a] =>
    if a ≠ [] ∧ a.all Char.isDigit then
      some (sign * (digitsVal a : Int))
    else none
  | [a, b] =>
    if (a ≠ [] ∨ b ≠ []) ∧ a.all Char.isDigit ∧ b.all Char.isDigit then
      some (sign * (digitsVal a : Int))
    else none
  | _ => none

/-! ## Command construction (`helpers/downloader.py`) -/

/-- `YouTubeDownloader.VIDEO_QUALITY_FORMATS` (downloader.py lines 30–36). -/
def VIDEO_QUALITY_FORMATS : List (String × String) :=
  [("best", "bestvideo[ext=mp4]+bestaudio[ext=m4a]/best[ext=mp4]/best"),
   ("1080p", "bestvideo[height<=1080][ext=mp4]+bestaudio[ext=m4a]/best[height<=1080][ext=mp4]/best[height<=1080]"),
   ("720p", "bestvideo[height<=720][ext=mp4]+bestaudio[ext=m4a]/best[height<=720][ext=mp4]/best[height<=720]"),
   ("480p", "bestvideo[height<=480][ext=mp4]+bestaudio[ext=m4a]/best[height<=480][ext=mp4]/best[height<=480]"),
   ("worst", "worstvideo[ext=mp4]+worstaudio[ext=m4a]/worst[ext=mp4]/worst")]

/-- `YouTubeDownloader.AUDIO_FORMAT`. -/
def AUDIO_FORMAT : String := "bestaudio[ext=m4a]/bestaudio/best"

/-- Dictionary lookup on the quality map. -/
def qualityLookup (q : String) : Option String :=
  (VIDEO_QUALITY_FORMATS.find? (fun p => p.1 == q)).map Prod.snd

/-- `VIDEO_QUALITY_FORMATS.get(quality, VIDEO_QUALITY_FORMATS["720p"])`
as evaluated in `download_video` (downloader.py line 179). -/
def videoFormatString (q : String) : String :=
  (qualityLookup q).getD ((qualityLookup "720p").getD "")

/-- `_build_download_command` (downloader.py lines 222–258). `py` stands
for `sys.executable`; the output template is passed in already built. -/
def buildDownloadCommand (py url formatString outputTemplate mergeFormat : String) :
    List String :=
  [py, "-m", "yt_dlp",
   "-f", formatString,
   "--merge-output-format", mergeFormat,
   "-o", outputTemplate,
   "--newline",
   "--progress",
   "--restrict-filenames",
   "--user-agent", "Mozilla/5.0 (Windows NT 10.0; Win64; x64) AppleWebKit/537.36 (KHTML, like Gecko) Chrome/120.0.0.0 Safari/537.36",
   "--extractor-args", "youtube:player_client=android,web",
   "--no-check-certificate",
   "--no-playlist",
   url]

/-- The command `download_video` builds (downloader.py lines 162–184):
quality resolves through `videoFormatString`, merge format is `mp4`. -/
def downloadVideoCmd (py url quality outputTemplate : String) : List String :=
  buildDownloadCommand py url (videoFormatString quality) outputTemplate "mp4"

/-- The command `download_audio` builds (downloader.py lines 186–220).
It takes no quality argument at all. -/
def downloadAudioCmd (py url outputTemplate : String) : List String :=
  [py, "-m", "yt_dlp",
   "-f", AUDIO_FORMAT,
   "-x",
   "--audio-format", "mp3",
   "--audio-quality", "0",
   "-o", outputTemplate,
   "--newline",
   "--progress",
   "--restrict-filenames",
   "--user-agent", "Mozilla/5.0 (Windows NT 10.0; Win64; x64) AppleWebKit/537.36",
   "--extractor-args", "youtube:player_client=android,web",
   "--no-check-certificate",
   "--no-playlist",
   url]

/-- The dispatch in `download_video_thread` (utils.py lines 96–106): an
mp3 job calls `download_audio` (which has no quality parameter), any
other format type calls `download_video` with the job quality. -/
def jobDownloadCmd (py formatType quality url outputTemplate : String) :
    List String :=
  if formatType == "mp3" then downloadAudioCmd py url outputTemplate
  else downloadVideoCmd py url quality outputTemplate

/-- `DownloadForm.clean` (forms.py lines 43–54): for mp3 the quality
field is forced to `best`. -/
def formClean (formatType quality : String) : String × String :=
  if formatType == "mp3" then (formatType, "best") else (formatType, quality)

/-! ## Progress stream parser (`_execute_download` loop, downloader.py
lines 284–315) -/

/-- Parser state: the candidate output path and the working title —
exactly the two locals `current_file` / `current_title` of
`_execute_download`. `current_file` starts as Python `None`. -/
structure ParseState where
  current_file : Option String
  current_title : String
deriving Repr, DecidableEq

/-- Initial parser state (`current_file = None`, `current_title = ""`). -/
def initParseState : ParseState := ⟨none, ""⟩

/-- The token whose float-parse drives the percent branch:
`line.split("%")[0].split()[-1]` (downloader.py line 299); `none` when
the whitespace split is empty (Python `IndexError`, caught). -/
def percentToken (line : String) : Option String :=
  (pySplitWs ((pySplitOn line "%").headD "")).getLast?

/-- The announced destination of a `Destination:` line:
`line.split("Destination:")[-1].strip()` (downloader.py line 292). -/
def announcedDest (line : String) : String :=
  pyStrip ((pySplitOn line "Destination:").getLastD "")

/-- One iteration of the line loop in `_execute_download` (downloader.py
lines 287–315): `rawLine` is stripped, then matched by the if/elif chain.
Returns the new state and the list of `progress_callback` invocations it
fires (arguments `(int(percent), current_title)`); a present callback is
assumed, as in `download_video_thread`. -/
def processLine (st : ParseState) (rawLine : String) :
    ParseState × List (Int × String) :=
  let line := pyStrip rawLine
  if containsStr "[download]" line ∧ containsStr "Destination:" line then
    let dest := announcedDest line
    (⟨some dest, stemOf dest⟩, [])
  else if containsStr "[download]" line ∧ containsStr "%" line then
    match percentToken line with
    | some tok =>
      match parseDecimalTrunc tok with
      | some p => (st, [(p, st.current_title)])
      | none => (st, [])
    | none => (st, [])
  else if containsStr "[Merger]" line ∧ containsStr "Merging formats into" line then
    let parts := pySplitOn line "\x22"
    let merged : Option String :=
      if containsStr "\x22" line then parts.get? (parts.length - 2) else none
    match merged with
    | some m => if m ≠ "" then (⟨some m, st.current_title⟩, []) else (st, [])
    | none => (st, [])
  else if containsStr "[ExtractAudio]" line ∧ containsStr "Destination:" line then
    (⟨some (announcedDest line), st.current_title⟩, [])
  else (st, [])

/-! ## Output-path resolution on successful process exit
(`_execute_download`, downloader.py lines 319–337) -/

/-- Python `max(files, key=mtime)`: the first element of maximal mtime
(later elements replace only when strictly greater). -/
def maxByMtime : List (String × Nat) → Option (String × Nat)
  | [] => none
  | f :: fs => some (fs.foldl (fun acc g => if g.2 > acc.2 then g else acc) f)

/-- Glob `"{title}.*"` as a name predicate: the file name starts with
the title followed by a dot (`*` matches any, possibly empty, run of
characters; title text is taken literally — titles produced under
`--restrict-filenames` carry no glob metacharacters). -/
def globTitleMatch (title name : String) : Bool :=
  (title ++ ".").toList.isPrefixOf name.toList

/-- Result triple of `_execute_download`: (success, message, file_path). -/
structure DownloadResult where
  success : Bool
  message : String
  file_path : Option String
deriving Repr, DecidableEq

/-- Tier (iii) of the post-exit resolution (downloader.py lines
333–337): `sorted(output_dir.iterdir(), key=mtime, reverse=True)` is a
stable descending sort, so its head is the first file of maximal mtime,
i.e. `maxByMtime`; an empty directory gives the distinct failure
message. -/
def tierThreeResolve (dirFiles : List (String × Nat)) : DownloadResult :=
  match maxByMtime dirFiles with
  | some (n, _) => ⟨true, "Download completed successfully", some n⟩
  | none => ⟨false, "Download completed but file not found", none⟩

/-- Tier (ii) of the post-exit resolution (downloader.py lines
325–330): when `current_title` is truthy, glob `"{title}.*"` and take
the most recently modified match; no match (or a falsy title) falls
through to tier (iii). -/
def tierTwoResolve (current_title : String) (dirFiles : List (String × Nat)) :
    DownloadResult :=
  if current_title ≠ "" then
    match maxByMtime (dirFiles.filter (fun p => globTitleMatch current_title p.1)) with
    | some (n, _) => ⟨true, "Download completed successfully", some n⟩
    | none => tierThreeResolve dirFiles
  else tierThreeResolve dirFiles

/-- The three-tier resolution after `returncode == 0` (downloader.py
lines 319–337). `fsExists` models `Path(current_file).exists()`;
`dirFiles` the entries of `output_dir` as (name, mtime) pairs, in
directory iteration order. Tier (i): the parser-captured path when
truthy and existing; otherwise tiers (ii) and (iii). -/
def resolveSuccess (current_file : Option String) (current_title : String)
    (fsExists : String → Bool) (dirFiles : List (String × Nat)) :
    DownloadResult :=
  match current_file with
  | some f =>
    if f ≠ "" ∧ fsExists f then ⟨true, "Download completed successfully", some f⟩
    else tierTwoResolve current_title dirFiles
  | none => tierTwoResolve current_title dirFiles

/-! ## Contention-resilient persistence (`utils.py` lines 19–42) -/

/-- Database errors: `operational msg` models Django `OperationalError`
(with its message), `other msg` any other exception class. -/
inductive DbErr where
  | operational (msg : String)
  | other (msg : String)
deriving Repr, DecidableEq

/-- Python `str.lower()` restricted to ASCII case mapping (the messages
involved are ASCII). -/
def pyLower (s : String) : String :=
  String.mk (s.toList.map Char.toLower)

/-- Python `str(e)`: the message carried by the exception. -/
def errText : DbErr → String
  | .operational m => m
  | .other m => m

/-- The retry condition of `retry_on_db_lock` (utils.py line 28):
an `OperationalError` whose lowercased message contains
"database is locked". -/
def isLockErr : DbErr → Bool
  | .operational m => containsStr "database is locked" (pyLower m)
  | .other _ => false

/-- Loop body of `retry_on_db_lock` (utils.py lines 24–34). `func i` is
the outcome of the call made on attempt `i` (0-based); each attempt is
all-or-nothing, as `safe_save` runs it inside `transaction.atomic()`.
Returns the outcome together with the list of slept backoff delays in
milliseconds (`initial_delay * 2**attempt` seconds, slept only when the
error is a lock error and `attempt < max_retries - 1`). `fuel` is the
number of loop iterations remaining; the post-loop raise
(utils.py line 34) is the fuel-exhaustion case. -/
def retryAux {α : Type} (func : Nat → Except DbErr α) (maxRetries : Nat) :
    Nat → Nat → Except DbErr α × List Nat
  | 0, _ => (.error (.operational "Max retries exceeded for database operation"), [])
  | fuel + 1, attempt =>
    match func attempt with
    | .ok a => (.ok a, [])
    | .error e =>
      if isLockErr e ∧ attempt < maxRetries - 1 then
        let rest := retryAux func maxRetries fuel (attempt + 1)
        (rest.1, 100 * 2 ^ attempt :: rest.2)
      else (.error e, [])

/-- `retry_on_db_lock(func)` with the default `max_retries=5`,
`initial_delay=0.1` (100 ms). -/
def retry_on_db_lock {α : Type} (func : Nat → Except DbErr α) :
    Except DbErr α × List Nat :=
  retryAux func 5 5 0

/-- `safe_save` (utils.py lines 37–42): the save attempt, wrapped in an
atomic transaction, run under `retry_on_db_lock`. In this embedding a
save attempt is exactly an all-or-nothing `Except` outcome, so
`safe_save` is `retry_on_db_lock` applied to it. -/
def safe_save {α : Type} (saveAttempt : Nat → Except DbErr α) :
    Except DbErr α × List Nat :=
  retry_on_db_lock saveAttempt

/-! ## Job record and orchestrator finalization
(`download_video_thread`, utils.py lines 52–139) -/

/-- The `VideoDownload` fields the orchestrator writes (models.py).
`completed_at` is an abstract timestamp, `none` until completion. -/
structure Job where
  status : String
  progress : Int
  title : String
  file_path : String
  file_size : Int
  error_message : String
  completed_at : Option Nat
deriving Repr, DecidableEq

/-- A freshly created job row (models.py defaults: status `pending`,
progress 0, every text field empty, `completed_at` null). -/
def newJob : Job :=
  ⟨"pending", 0, "", "", 0, "", none⟩

/-- The terminal write of `download_video_thread` (utils.py lines
108–124): on `success and file_path` (Python truthiness: a non-`None`,
non-empty path) one record update sets `file_path`, `status`,
`progress=100`, `completed_at` and best-effort `file_size`; otherwise
one update sets `status="failed"` and `error_message` (the message, or
`"Download failed"` when the message is falsy), touching neither
`file_path` nor `progress`. -/
def finalizeJob (j : Job) (success : Bool) (message : String)
    (file_path : Option String) (now : Nat) (statSize : Option Int) : Job :=
  match file_path with
  | some p =>
    if success ∧ p ≠ "" then
      { j with file_path := p, status := "completed", progress := 100,
               completed_at := some now, file_size := statSize.getD j.file_size }
    else
      { j with status := "failed",
               error_message := if message ≠ "" then message else "Download failed" }
  | none =>
    { j with status := "failed",
             error_message := if message ≠ "" then message else "Download failed" }

/-- The top-level exception handler of `download_video_thread` (utils.py
lines 128–137): re-fetch the row and write `status="failed"` with the
exception text; `file_path` is not touched. -/
def failJobOnException (j : Job) (errText : String) : Job :=
  { j with status := "failed", error_message := errText }

/-- `get_and_update` inside `progress_callback` (utils.py lines 83–88):
set `progress`; set `title` (truncated to 500 chars) only when the
callback title is truthy and the stored title is falsy. -/
def updateJobProgress (j : Job) (percent : Int) (title : String) : Job :=
  let j := { j with progress := percent }
  if title ≠ "" ∧ j.title = "" then
    { j with title := String.mk (title.toList.take 500) }
  else j

/-- `progress_callback` (utils.py lines 80–93). `fetchErr i` /
`saveErr i` inject the outcome of the i-th fetch / save attempt
(`none` = success). The whole body is inside `try/except Exception`:
on any error — including retry exhaustion — the stored row is left
unchanged and one error line is logged; nothing propagates. Returns
(stored row afterwards, log lines). -/
def progress_callback (j : Job) (percent : Int) (title : String)
    (fetchErr : Nat → Option DbErr) (saveErr : Nat → Option DbErr) :
    Job × List String :=
  let fetched := retry_on_db_lock (fun i =>
    match fetchErr i with
    | some e => .error e
    | none => .ok (updateJobProgress j percent title))
  match fetched.1 with
  | .error e => (j, ["Error updating progress: " ++ errText e])
  | .ok dl =>
    let saved := safe_save (fun i =>
      match saveErr i with
      | some e => (.error e : Except DbErr Job)
      | none => .ok dl)
    match saved.1 with
    | .error e => (j, ["Error updating progress: " ++ errText e])
    | .ok dl2 => (dl2, [])

/-! ## Owner-scoped read accessors (`views.py`) -/

/-- The `VideoDownload` columns the serving views read. -/
structure DLRow where
  rid : Nat
  session_id : String
  url : String
  title : String
  status : String
  progress : Int
  error_message : String
  file_path : String
  file_size : Int
  thumbnail : String
  duration : Int
  format_type : String
deriving Repr, DecidableEq

/-- Payload of a successful `get_progress` JSON response (views.py
lines 98–108). -/
structure ProgressData where
  pid : Nat
  title : String
  status : String
  progress : Int
  error_message : String
  file_available : Bool
  thumbnail : String
  duration : Int
  format_type : String
deriving Repr, DecidableEq

/-- Response of `get_progress`: 200 with data, or 404 "Download not
found" carrying nothing. -/
inductive ProgressResponse where
  | ok (data : ProgressData)
  | notFound
deriving Repr, DecidableEq

/-- `VideoDownload.objects.get(id=download_id, session_id=session_id)`:
the first row matching both the id and the owner token (`id` is the
primary key, so at most one row matches). -/
def lookupOwned (db : List DLRow) (did : Nat) (sid : String) : Option DLRow :=
  db.find? (fun r => r.rid == did && r.session_id == sid)

/-- `get_progress` (views.py lines 91–111): owner-scoped lookup; on
`DoesNotExist` a 404 with no job data. -/
def get_progress (db : List DLRow) (did : Nat) (sid : String) :
    ProgressResponse :=
  match lookupOwned db did sid with
  | some r =>
    .ok ⟨r.rid,
         (if r.title ≠ "" then r.title else "Processing..."),
         r.status, r.progress, r.error_message,
         (r.file_path ≠ "" ∧ r.status = "completed" : Bool),
         r.thumbnail, r.duration, r.format_type⟩
  | none => .notFound

/-- Response of `download_file`: the served file (path and content
type), or 404. -/
inductive FileServeResponse where
  | serve (path : String) (contentType : String)
  | notFound
deriving Repr, DecidableEq

/-- `download_file` (views.py lines 135–154): owner-scoped
`get_object_or_404`; 404 unless `file_path` is truthy, status is
`completed` and the file exists on disk; content type `audio/mpeg` for
mp3 else `video/mp4`. -/
def download_file (db : List DLRow) (fsExists : String → Bool)
    (did : Nat) (sid : String) : FileServeResponse :=
  match lookupOwned db did sid with
  | none => .notFound
  | some r =>
    if r.file_path ≠ "" ∧ r.status = "completed" then
      if fsExists r.file_path then
        .serve r.file_path (if r.format_type = "mp3" then "audio/mpeg" else "video/mp4")
      else .notFound
    else .notFound

/-! ## Theorems -/

/-- C7: The video format-selection expressions embed exact height
ceilings — the 1080p selector contains `height<=1080`, the 720p selector
`height<=720`, the 480p selector `height<=480` — and the `best` and
`worst` selectors resolve to non-empty format-selection strings. -/
theorem video_quality_ceilings :
    containsStr "height<=1080" (videoFormatString "1080p") = true ∧
    containsStr "height<=720" (videoFormatString "720p") = true ∧
    containsStr "height<=480" (videoFormatString "480p") = true ∧
    videoFormatString "best" ≠ "" ∧
    videoFormatString "worst" ≠ "" := by
  decide

/-- C6: For an audio (mp3) job the constructed command line is identical
for any two values of the quality selector: the dispatch always calls
the quality-free audio builder, whose command requests the best-effort
audio-only stream (`-f AUDIO_FORMAT`), audio extraction (`-x`),
transcoding to mp3, and maximum quality (`--audio-quality 0`). -/
theorem audio_job_ignores_quality (py url tpl q1 q2 : String) :
    jobDownloadCmd py "mp3" q1 url tpl = jobDownloadCmd py "mp3" q2 url tpl ∧
    jobDownloadCmd py "mp3" q1 url tpl = downloadAudioCmd py url tpl ∧
    (∃ pre post, downloadAudioCmd py url tpl =
      pre ++ "-f" :: AUDIO_FORMAT :: "-x" :: "--audio-format" :: "mp3" ::
        "--audio-quality" :: "0" :: post) ∧
    formClean "mp3" q1 = ("mp3", "best") := by
  refine ⟨rfl, rfl,
    ⟨[py, "-m", "yt_dlp"],
     ["-o", tpl, "--newline", "--progress", "--restrict-filenames",
      "--user-agent", "Mozilla/5.0 (Windows NT 10.0; Win64; x64) AppleWebKit/537.36",
      "--extractor-args", "youtube:player_client=android,web",
      "--no-check-certificate", "--no-playlist", url], rfl⟩, rfl⟩

/-- C9: For a quality string outside {best, 1080p, 720p, 480p, worst},
`download_video` does not fail fast: the format lookup silently falls
back to the 720p selection expression and the built command is exactly
the 720p command (and in particular a non-empty command is built). -/
theorem unknown_quality_uses_720p (q : String)
    (h : q ∉ ["best", "1080p", "720p", "480p", "worst"]) :
    ∀ py url tpl,
      downloadVideoCmd py url q tpl = downloadVideoCmd py url "720p" tpl ∧
      downloadVideoCmd py url q tpl ≠ [] := by
  intro py url tpl
  simp only [List.mem_cons, List.mem_singleton, not_or] at h
  obtain ⟨h1, h2, h3, h4, h5, -⟩ := h
  have hq : videoFormatString q = videoFormatString "720p" := by
    simp [videoFormatString, qualityLookup, VIDEO_QUALITY_FORMATS, List.find?,
      beq_eq_false_iff_ne.mpr (Ne.symm h1), beq_eq_false_iff_ne.mpr (Ne.symm h2),
      beq_eq_false_iff_ne.mpr (Ne.symm h3), beq_eq_false_iff_ne.mpr (Ne.symm h4),
      beq_eq_false_iff_ne.mpr (Ne.symm h5)]
  exact ⟨by simp [downloadVideoCmd, hq], by simp [downloadVideoCmd, buildDownloadCommand]⟩

/-- C9 witness: the unrecognized quality `"ultra"` builds the 720p
command. -/
theorem unknown_quality_uses_720p_witness :
    downloadVideoCmd "py" "u" "ultra" "t" = downloadVideoCmd "py" "u" "720p" "t" ∧
    downloadVideoCmd "py" "u" "ultra" "t" ≠ [] :=
  unknown_quality_uses_720p "ultra" (by decide) "py" "u" "t"

/-- C2 counterexample: a write failing with "database is locked" on
every attempt exhausts the 5 attempts sleeping exactly 100, 200, 400,
800 ms — the claimed 1600 ms backoff delay never occurs between
attempts, because the fifth locked failure re-raises immediately
instead of sleeping. -/
theorem retry_backoff_no_1600 :
    retry_on_db_lock
        (fun _ => (.error (.operational "database is locked") : Except DbErr Nat)) =
      (.error (.operational "database is locked"), [100, 200, 400, 800]) ∧
    (1600 : Nat) ∉
      (retry_on_db_lock
        (fun _ => (.error (.operational "database is locked") : Except DbErr Nat))).2 :=
  ⟨rfl, by decide⟩

/-- C2 (amended): writes wrapped by the persistence layer are attempted
up to 5 times; a "database is locked" failure before the last attempt
sleeps 100·2^attempt ms (so 100, 200, 400, 800 ms between the attempts,
the 1600 ms value being computed but never slept), each attempt being
all-or-nothing inside an atomic transaction; after a locked failure on
the fifth attempt that error propagates with no further sleep; any
non-lock error propagates immediately with no retry and no sleep. In
particular a write failing twice with "locked" then succeeding on the
third attempt completes after sleeping 100 ms then 200 ms, and a write
failing 5 times in a row raises. -/
theorem retry_backoff_behaviour {α : Type} :
    (∀ (func : Nat → Except DbErr α) (a : α) (e0 e1 : DbErr),
      func 0 = .error e0 → isLockErr e0 = true →
      func 1 = .error e1 → isLockErr e1 = true →
      func 2 = .ok a →
      retry_on_db_lock func = (.ok a, [100, 200])) ∧
    (∀ (func : Nat → Except DbErr α),
      (∀ i, i ≤ 4 → ∃ e, func i = .error e ∧ isLockErr e = true) →
      ∃ e, func 4 = .error e ∧
        retry_on_db_lock func = (.error e, [100, 200, 400, 800])) ∧
    (∀ (func : Nat → Except DbErr α) (e : DbErr),
      func 0 = .error e → isLockErr e = false →
      retry_on_db_lock func = (.error e, [])) := by
  refine ⟨?_, ?_, ?_⟩
  · intro func a e0 e1 h0 hl0 h1 hl1 h2
    simp [retry_on_db_lock, retryAux, h0, hl0, h1, hl1, h2]
  · intro func h
    obtain ⟨e0, h0, hl0⟩ := h 0 (by norm_num)
    obtain ⟨e1, h1, hl1⟩ := h 1 (by norm_num)
    obtain ⟨e2, h2, hl2⟩ := h 2 (by norm_num)
    obtain ⟨e3, h3, hl3⟩ := h 3 (by norm_num)
    obtain ⟨e4, h4, hl4⟩ := h 4 (by norm_num)
    refine ⟨e4, h4, ?_⟩
    simp [retry_on_db_lock, retryAux, h0, hl0, h1, hl1, h2, hl2, h3, hl3, h4, hl4]
  · intro func e h0 hl0
    simp [retry_on_db_lock, retryAux, h0, hl0]

/-- C2 witness: concrete runs — two locked failures then success gives
`.ok` after sleeping [100, 200]; five straight locked failures raises
after sleeping [100, 200, 400, 800]; a non-lock error propagates at once
with no sleep. -/
theorem retry_backoff_behaviour_witness :
    retry_on_db_lock
        (fun i => match i with
          | 0 => .error (.operational "database is locked")
          | 1 => .error (.operational "database is locked")
          | _ => (.ok 37 : Except DbErr Nat)) =
      (.ok 37, [100, 200]) ∧
    (∃ e, (fun _ => (.error (.operational "database is locked") : Except DbErr Nat)) 4 =
        .error e ∧
      retry_on_db_lock
          (fun _ => (.error (.operational "database is locked") : Except DbErr Nat)) =
        (.error e, [100, 200, 400, 800])) ∧
    retry_on_db_lock (fun _ => (.error (.other "boom") : Except DbErr Nat)) =
      (.error (.other "boom"), []) := by
  refine ⟨?_, ?_, ?_⟩
  · exact (@retry_backoff_behaviour Nat).1 _ 37 _ _ rfl (by decide) rfl (by decide) rfl
  · exact (@retry_backoff_behaviour Nat).2.1 _
      (fun i _ => ⟨.operational "database is locked", rfl, by decide⟩)
  · exact (@retry_backoff_behaviour Nat).2.2 _ _ rfl (by decide)

/-- C1: terminal states written by `download_video_thread`. Starting
from a job that has no output path yet (every job enters the thread
with the model default `file_path = ""`): the written terminal record
satisfies `file_path ≠ "" ↔ status = "completed"`; the success branch
sets `file_path`, `progress = 100` and `status = "completed"` in the
one record written; and both failure paths (the else branch and the
top-level exception handler) set `status = "failed"` without touching
`file_path`. -/
theorem terminal_state_invariant (j : Job) (hfp : j.file_path = "") :
    ∀ (success : Bool) (message : String) (fp : Option String) (now : Nat)
      (sz : Option Int),
      ((finalizeJob j success message fp now sz).file_path ≠ "" ↔
        (finalizeJob j success message fp now sz).status = "completed") ∧
      (∀ p, success = true → fp = some p → p ≠ "" →
        finalizeJob j success message fp now sz =
          { j with file_path := p, status := "completed", progress := 100,
                   completed_at := some now, file_size := sz.getD j.file_size }) ∧
      ((success = false ∨ fp = none ∨ fp = some "") →
        (finalizeJob j success message fp now sz).file_path = "" ∧
        (finalizeJob j success message fp now sz).status = "failed") ∧
      (∀ errText, (failJobOnException j errText).file_path = "" ∧
        (failJobOnException j errText).status = "failed") := by
  intro success message fp now sz
  refine ⟨?_, ?_, ?_, ?_⟩
  · match fp with
    | none => simp [finalizeJob, hfp]
    | some p =>
      by_cases hs : success = true ∧ p ≠ ""
      · simp [finalizeJob, hs.1, hs.2, hfp]
      · rcases not_and_or.mp hs with hs' | hs'
        · have : success = false := by
            cases success
            · rfl
            · exact absurd rfl hs'
          simp [finalizeJob, this, hfp]
        · have hp : p = "" := not_not.mp hs'
          simp [finalizeJob, hp, hfp]
  · intro p hsu hfp' hp
    subst hfp' hsu
    simp [finalizeJob, hp]
  · intro h
    rcases h with h | h | h
    · subst h
      match fp with
      | none => simp [finalizeJob, hfp]
      | some p => simp [finalizeJob, hfp]
    · subst h; simp [finalizeJob, hfp]
    · subst h; simp [finalizeJob, hfp]
  · intro errText
    simp [failJobOnException, hfp]

/-- C1 witness: at a pending job, a successful result with path
`"out.mp4"` yields the completed record with `progress = 100` and that
path, and both the iff and the failure facts hold there. -/
theorem terminal_state_invariant_witness :
    ((finalizeJob newJob true "Download completed successfully"
        (some "out.mp4") 7 (some 999)).file_path ≠ "" ↔
      (finalizeJob newJob true "Download completed successfully"
        (some "out.mp4") 7 (some 999)).status = "completed") ∧
    finalizeJob newJob true "Download completed successfully"
        (some "out.mp4") 7 (some 999) =
      { newJob with file_path := "out.mp4", status := "completed",
                    progress := 100, completed_at := some 7, file_size := 999 } ∧
    (finalizeJob newJob false "Download failed" none 7 none).file_path = "" ∧
    (finalizeJob newJob false "Download failed" none 7 none).status = "failed" := by
  have h1 := terminal_state_invariant newJob rfl true
    "Download completed successfully" (some "out.mp4") 7 (some 999)
  have h2 := terminal_state_invariant newJob rfl false
    "Download failed" none 7 none
  exact ⟨h1.1, (h1.2.1 "out.mp4" rfl rfl (by decide)).trans (by rfl),
    (h2.2.2.1 (Or.inl rfl)).1, (h2.2.2.1 (Or.inl rfl)).2⟩

/-- Helper: a successful outcome of the retry loop is the value some
attempt returned. -/
theorem retryAux_ok_exists {α : Type} (func : Nat → Except DbErr α)
    (mr : Nat) : ∀ (fuel att : Nat) (a : α),
    (retryAux func mr fuel att).1 = .ok a → ∃ i, func i = .ok a := by
  intro fuel
  induction fuel with
  | zero => intro att a h; simp [retryAux] at h
  | succ n ih =>
    intro att a h
    simp only [retryAux] at h
    split at h
    case _ b hb =>
      refine ⟨att, ?_⟩
      rw [hb]
      simpa using h
    case _ e he =>
      split at h
      · exact ih (att + 1) a h
      · simp at h

/-- Helper: `updateJobProgress` never changes the status (or the
file path) of the row. -/
theorem updateJobProgress_fields (j : Job) (p : Int) (t : String) :
    (updateJobProgress j p t).status = j.status ∧
    (updateJobProgress j p t).file_path = j.file_path := by
  simp only [updateJobProgress]
  split <;> exact ⟨rfl, rfl⟩

/-- C10: the orchestrator's progress callback swallows every
persistence failure. For any injected fetch/save outcomes — including
retry exhaustion after repeated lock errors — the callback returns
normally (it is a total function in this embedding, mirroring the
`try/except Exception` around its whole body): the stored row keeps its
status (a progress-write failure alone never makes the job `failed`),
and when an error occurred the row is left unchanged and the error is
only logged. -/
theorem progress_callback_swallows_errors (j : Job) (pct : Int)
    (ttl : String) (fetchErr saveErr : Nat → Option DbErr) :
    ((progress_callback j pct ttl fetchErr saveErr).1.status = j.status) ∧
    ((progress_callback j pct ttl fetchErr saveErr).2 ≠ [] →
      (progress_callback j pct ttl fetchErr saveErr).1 = j) := by
  simp only [progress_callback]
  rcases hret : (retry_on_db_lock (fun i =>
    match fetchErr i with
    | some e => .error e
    | none => .ok (updateJobProgress j pct ttl))).1 with e | dl
  · simp [hret]
  · have hdl : dl = updateJobProgress j pct ttl := by
      obtain ⟨i, hi⟩ := retryAux_ok_exists _ 5 5 0 dl hret
      rcases hei : fetchErr i with _ | e
      · rw [hei] at hi
        exact ((Except.ok.injEq _ _).mp hi).symm
      · rw [hei] at hi
        exact absurd hi (by simp)
    rcases hrs : (safe_save (fun i =>
      match saveErr i with
      | some e => (.error e : Except DbErr Job)
      | none => .ok dl)).1 with e | dl2
    · simp [hret, hrs]
    · have hdl2 : dl2 = dl := by
        obtain ⟨i, hi⟩ := retryAux_ok_exists _ 5 5 0 dl2 hrs
        rcases hei : saveErr i with _ | e
        · rw [hei] at hi
          exact ((Except.ok.injEq _ _).mp hi).symm
        · rw [hei] at hi
          exact absurd hi (by simp)
      simp only [hret, hrs]
      refine ⟨?_, fun hne => absurd rfl hne⟩
      rw [hdl2, hdl]
      exact (updateJobProgress_fields j pct ttl).1

/-- C10 witness: with every fetch attempt failing "database is locked"
(retry exhaustion), the callback on a `downloading` job leaves the row
unchanged and keeps its status. -/
theorem progress_callback_swallows_errors_witness :
    ((progress_callback { newJob with status := "downloading" } 42 "T"
        (fun _ => some (.operational "database is locked"))
        (fun _ => none)).1.status = "downloading") ∧
    ((progress_callback { newJob with status := "downloading" } 42 "T"
        (fun _ => some (.operational "database is locked"))
        (fun _ => none)).1 = { newJob with status := "downloading" }) := by
  have h := progress_callback_swallows_errors
    { newJob with status := "downloading" } 42 "T"
    (fun _ => some (.operational "database is locked")) (fun _ => none)
  exact ⟨h.1.trans rfl, h.2 (by decide)⟩

/-- Tier (i) yields nothing: the parser-captured path is absent, falsy,
or does not exist on disk. -/
def tierOneFails (current_file : Option String) (fsExists : String → Bool) :
    Prop :=
  ∀ f, current_file = some f → (f = "" ∨ fsExists f = false)

/-- Helper: when tier (i) fails the resolution is tier (ii)/(iii). -/
theorem resolveSuccess_of_tierOneFails (cf : Option String) (ct : String)
    (fsExists : String → Bool) (dirFiles : List (String × Nat))
    (h : tierOneFails cf fsExists) :
    resolveSuccess cf ct fsExists dirFiles = tierTwoResolve ct dirFiles := by
  match cf with
  | none => rfl
  | some f =>
    rcases h f rfl with hf | hf
    · simp [resolveSuccess, hf]
    · simp [resolveSuccess, hf]

/-- Helper: the element the Python-`max` fold keeps belongs to
`f :: fs`, dominates the seed `f`, and dominates every element of
`fs` in mtime. -/
theorem maxByMtime_foldl_spec :
    ∀ (fs : List (String × Nat)) (f : String × Nat),
      (fs.foldl (fun acc g => if g.2 > acc.2 then g else acc) f) ∈ f :: fs ∧
      f.2 ≤ (fs.foldl (fun acc g => if g.2 > acc.2 then g else acc) f).2 ∧
      ∀ y ∈ fs, y.2 ≤ (fs.foldl (fun acc g => if g.2 > acc.2 then g else acc) f).2 := by
  intro fs
  induction fs with
  | nil =>
    intro f
    exact ⟨List.mem_singleton_self f, le_refl _, by simp⟩
  | cons g gs ih =>
    intro f
    obtain ⟨hmem, hle, hall⟩ := ih (if g.2 > f.2 then g else f)
    simp only [List.foldl_cons]
    refine ⟨?_, ?_, ?_⟩
    · rcases List.mem_cons.mp hmem with h | h
      · rw [h]
        by_cases hg : g.2 > f.2
        · rw [if_pos hg]
          exact List.mem_cons_of_mem f (List.mem_cons_self g gs)
        · rw [if_neg hg]
          exact List.mem_cons_self f (g :: gs)
      · exact List.mem_cons_of_mem f (List.mem_cons_of_mem g h)
    · refine le_trans ?_ hle
      by_cases hg : g.2 > f.2
      · rw [if_pos hg]
        exact le_of_lt hg
      · rw [if_neg hg]
    · intro y hy
      rcases List.mem_cons.mp hy with h | h
      · rw [h]
        refine le_trans ?_ hle
        by_cases hg : g.2 > f.2
        · rw [if_pos hg]
        · rw [if_neg hg]
          exact le_of_not_lt hg
      · exact hall y h

/-- Helper: `maxByMtime` — Python `max(files, key=mtime)` — returns an
element of the list whose mtime is greatest (the first such element,
later files winning only on strictly greater mtime). -/
theorem maxByMtime_spec (l : List (String × Nat)) (x : String × Nat)
    (h : maxByMtime l = some x) : x ∈ l ∧ ∀ y ∈ l, y.2 ≤ x.2 := by
  rcases l with _ | ⟨f, fs⟩
  · simp [maxByMtime] at h
  · simp only [maxByMtime, Option.some.injEq] at h
    obtain ⟨hmem, hle, hall⟩ := maxByMtime_foldl_spec fs f
    subst h
    refine ⟨hmem, ?_⟩
    intro y hy
    rcases List.mem_cons.mp hy with h | h
    · rw [h]
      exact hle
    · exact hall y h

/-- C3: for a successful process exit the final output path follows the
three-tier fallback, in order: (i) the parser-captured path when it
exists; (ii) otherwise the most-recently-modified `title.*` file — the
selected match belongs to the matches and its mtime dominates all of
them, and in particular a unique match is selected; (iii) otherwise the
most-recently-modified file of the output directory — again a dominant
member; and when all three tiers are empty the result is the failure
with the distinct message "Download completed but file not found". -/
theorem three_tier_output_resolution (cf : Option String) (ct : String)
    (fsExists : String → Bool) (dirFiles : List (String × Nat)) :
    (∀ f, cf = some f → f ≠ "" → fsExists f = true →
      resolveSuccess cf ct fsExists dirFiles =
        ⟨true, "Download completed successfully", some f⟩) ∧
    (∀ f mt, tierOneFails cf fsExists → ct ≠ "" →
      maxByMtime (dirFiles.filter (fun p => globTitleMatch ct p.1)) = some (f, mt) →
      resolveSuccess cf ct fsExists dirFiles =
        ⟨true, "Download completed successfully", some f⟩ ∧
      (f, mt) ∈ dirFiles.filter (fun p => globTitleMatch ct p.1) ∧
      ∀ y ∈ dirFiles.filter (fun p => globTitleMatch ct p.1), y.2 ≤ mt) ∧
    (∀ f mt, tierOneFails cf fsExists → ct ≠ "" →
      dirFiles.filter (fun p => globTitleMatch ct p.1) = [(f, mt)] →
      resolveSuccess cf ct fsExists dirFiles =
        ⟨true, "Download completed successfully", some f⟩) ∧
    (∀ f mt, tierOneFails cf fsExists →
      (ct = "" ∨ dirFiles.filter (fun p => globTitleMatch ct p.1) = []) →
      maxByMtime dirFiles = some (f, mt) →
      resolveSuccess cf ct fsExists dirFiles =
        ⟨true, "Download completed successfully", some f⟩ ∧
      (f, mt) ∈ dirFiles ∧ ∀ y ∈ dirFiles, y.2 ≤ mt) ∧
    (tierOneFails cf fsExists → dirFiles = [] →
      resolveSuccess cf ct fsExists dirFiles =
        ⟨false, "Download completed but file not found", none⟩) := by
  refine ⟨?_, ?_, ?_, ?_, ?_⟩
  · intro f hcf hne hex
    subst hcf
    simp [resolveSuccess, hne, hex]
  · intro f mt h1 hct hmax
    have hspec := maxByMtime_spec _ _ hmax
    refine ⟨?_, hspec.1, fun y hy => hspec.2 y hy⟩
    rw [resolveSuccess_of_tierOneFails cf ct fsExists dirFiles h1]
    simp [tierTwoResolve, hct, hmax]
  · intro f mt h1 hct hfilter
    rw [resolveSuccess_of_tierOneFails cf ct fsExists dirFiles h1]
    simp [tierTwoResolve, hct, hfilter, maxByMtime]
  · intro f mt h1 h2 hmax
    have hspec := maxByMtime_spec _ _ hmax
    refine ⟨?_, hspec.1, fun y hy => hspec.2 y hy⟩
    rw [resolveSuccess_of_tierOneFails cf ct fsExists dirFiles h1]
    have hnil : maxByMtime ([] : List (String × Nat)) = none := rfl
    rcases h2 with h2 | h2
    · simp [tierTwoResolve, h2, tierThreeResolve, hmax]
    · simp [tierTwoResolve, h2, hnil, tierThreeResolve, hmax]
  · intro h1 hdir
    subst hdir
    rw [resolveSuccess_of_tierOneFails cf ct fsExists [] h1]
    rcases eq_or_ne ct "" with hct | hct
    · simp [tierTwoResolve, hct, tierThreeResolve, maxByMtime]
    · simp [tierTwoResolve, hct, tierThreeResolve, maxByMtime]

/-- C3 witness: concrete runs of each tier — the captured existing path
wins; with no captured path and two `f.*` matches the newer
`f.mp4.part` (mtime 9) is selected over `f.mp4` (mtime 3) despite a
newer non-matching file; a unique `f.*` match is selected; with a falsy
title the newest directory file wins; an empty directory gives the
distinct failure. -/
theorem three_tier_output_resolution_witness :
    resolveSuccess (some "/tmp/f.mp4") "f" (fun _ => true) [] =
      ⟨true, "Download completed successfully", some "/tmp/f.mp4"⟩ ∧
    resolveSuccess none "f" (fun _ => false)
        [("f.mp4", 3), ("f.mp4.part", 9), ("g.mp4", 5)] =
      ⟨true, "Download completed successfully", some "f.mp4.part"⟩ ∧
    resolveSuccess none "f" (fun _ => false) [("f.mp4", 3), ("g.mp4", 5)] =
      ⟨true, "Download completed successfully", some "f.mp4"⟩ ∧
    resolveSuccess none "" (fun _ => false) [("a.mp4", 1), ("b.mp4", 4)] =
      ⟨true, "Download completed successfully", some "b.mp4"⟩ ∧
    resolveSuccess none "f" (fun _ => false) [] =
      ⟨false, "Download completed but file not found", none⟩ := by
  refine ⟨?_, ?_, ?_, ?_, ?_⟩
  · exact (three_tier_output_resolution (some "/tmp/f.mp4") "f"
      (fun _ => true) []).1 "/tmp/f.mp4" rfl (by decide) rfl
  · exact ((three_tier_output_resolution none "f" (fun _ => false)
      [("f.mp4", 3), ("f.mp4.part", 9), ("g.mp4", 5)]).2.1 "f.mp4.part" 9
      (fun f h => Option.noConfusion h) (by decide) (by decide)).1
  · exact (three_tier_output_resolution none "f" (fun _ => false)
      [("f.mp4", 3), ("g.mp4", 5)]).2.2.1 "f.mp4" 3
      (fun f h => Option.noConfusion h) (by decide) (by decide)
  · exact ((three_tier_output_resolution none "" (fun _ => false)
      [("a.mp4", 1), ("b.mp4", 4)]).2.2.2.1 "b.mp4" 4
      (fun f h => Option.noConfusion h) (Or.inl rfl) (by decide)).1
  · exact (three_tier_output_resolution none "f" (fun _ => false) []).2.2.2.2
      (fun f h => Option.noConfusion h) rfl

/-- The integer the percent branch would pass to the callback:
`int(float(line.split("%")[0].split()[-1]))`, `none` when the token is
missing or malformed. -/
def percentOutcome (line : String) : Option Int :=
  match percentToken line with
  | some tok => parseDecimalTrunc tok
  | none => none

/-- C4: a line containing `[download]` and `%` (and not captured by the
earlier `Destination:` branch) fires `callback(int(percent),
current_title)` exactly when its percentage token parses as a decimal
number, and is ignored silently otherwise — state unchanged, no
callback, no exception. Concretely, `"[download]  42.0% of 10MiB"`
fires the callback with percent 42 and the current title, and
`"[download]  oops% done"` fires nothing. -/
theorem progress_line_handling (st : ParseState) :
    (∀ rawLine : String,
      containsStr "[download]" (pyStrip rawLine) = true →
      containsStr "%" (pyStrip rawLine) = true →
      containsStr "Destination:" (pyStrip rawLine) = false →
      processLine st rawLine =
        match percentOutcome (pyStrip rawLine) with
        | some p => (st, [(p, st.current_title)])
        | none => (st, [])) ∧
    processLine st "[download]  42.0% of 10MiB" =
      (st, [((42 : Int), st.current_title)]) ∧
    processLine st "[download]  oops% done" = (st, []) := by
  refine ⟨?_, rfl, rfl⟩
  intro rawLine h1 h2 h3
  simp only [processLine, percentOutcome, h1, h2, h3]
  rcases hpt : percentToken (pyStrip rawLine) with _ | tok
  · simp [hpt]
  · rcases hpd : parseDecimalTrunc tok with _ | p
    · simp [hpt, hpd]
    · simp [hpt, hpd]

/-- C4 witness: the two concrete lines at the initial parser state,
with the universal part instantiated on the well-formed line. -/
theorem progress_line_handling_witness :
    processLine initParseState "[download]  42.0% of 10MiB" =
      (initParseState, [((42 : Int), "")]) ∧
    processLine initParseState "[download]  oops% done" =
      (initParseState, []) := by
  have h := progress_line_handling initParseState
  have hu := h.1 "[download]  42.0% of 10MiB" (by decide) (by decide) (by decide)
  exact ⟨hu.trans (by decide), h.2.2⟩

/-- C5: a line containing `[download]` and `Destination:` makes the
parser capture the announced path (`split("Destination:")[-1].strip()`)
as the candidate output path, and derive the working title as the
path's base name with the extension removed; concretely
`"[download] Destination: foo bar.mp4"` yields working title
`"foo bar"`. -/
theorem destination_line_sets_title (st : ParseState) :
    (∀ rawLine : String,
      containsStr "[download]" (pyStrip rawLine) = true →
      containsStr "Destination:" (pyStrip rawLine) = true →
      processLine st rawLine =
        (⟨some (announcedDest (pyStrip rawLine)),
          stemOf (announcedDest (pyStrip rawLine))⟩, [])) ∧
    processLine st "[download] Destination: foo bar.mp4" =
      (⟨some "foo bar.mp4", "foo bar"⟩, []) := by
  refine ⟨?_, rfl⟩
  intro rawLine h1 h2
  simp [processLine, h1, h2]

/-- C5 witness: the universal part instantiated on the concrete line,
rewritten to the literal captured path and title. -/
theorem destination_line_sets_title_witness :
    processLine initParseState "[download] Destination: foo bar.mp4" =
      (⟨some "foo bar.mp4", "foo bar"⟩, []) := by
  have h := (destination_line_sets_title initParseState).1
    "[download] Destination: foo bar.mp4" (by decide) (by decide)
  exact h.trans (by decide)

/-- C8: a status read or a file-serving access whose owner token does
not match the stored owner of the requested job id yields "not found"
— a response constructor carrying no job fields, so no data of another
owner's job is ever returned. -/
theorem owner_token_scoping (db : List DLRow) (fsExists : String → Bool)
    (did : Nat) (sid : String)
    (h : ∀ r ∈ db, r.rid = did → r.session_id ≠ sid) :
    get_progress db did sid = .notFound ∧
    download_file db fsExists did sid = .notFound := by
  have hl : lookupOwned db did sid = none := by
    rw [lookupOwned, List.find?_eq_none]
    intro r hr
    simp only [Bool.and_eq_true, beq_iff_eq, not_and]
    exact h r hr
  exact ⟨by simp [get_progress, hl], by simp [download_file, hl]⟩

/-- C8 witness: a one-job store owned by session "alice" queried with
token "bob" returns "not found" on both accessors. -/
theorem owner_token_scoping_witness :
    get_progress
        [⟨1, "alice", "u", "T", "completed", 100, "", "/tmp/f.mp4", 9,
          "th", 10, "mp4"⟩] 1 "bob" = .notFound ∧
    download_file
        [⟨1, "alice", "u", "T", "completed", 100, "", "/tmp/f.mp4", 9,
          "th", 10, "mp4"⟩] (fun _ => true) 1 "bob" = .notFound :=
  owner_token_scoping
    [⟨1, "alice", "u", "T", "completed", 100, "", "/tmp/f.mp4", 9,
      "th", 10, "mp4"⟩] (fun _ => true) 1 "bob" (by decide)

end WebDownloader
